import Mathlib

/-!
Verification development for the UITraps unified-platform client orchestrator.

The definitions below are a shallow embedding of the orchestrator found in
the frontend sources: the mode classifier (`detectMode`), URL detection
(`detectUrlType` / `extractUrl`), the conversational context-gathering state
machine and the estimate/confirm/execute pipeline (`submitStep`,
`startEstimationStart`/`startEstimationResume`, `runAnalysisStart`/
`runAnalysisResume`, `cancelAnalysis`), the API-client timeout defaults, the
conversation-history assembly, and the transcript message-id generator.
Asynchronous functions are split at their await points into a synchronous
start function and a resume function taking the settled network outcome;
network effects are recorded in an explicit `issued` log, and invocations of
the `onAnalysisComplete` callback in a `completions` log.
-/

namespace UITraps

/-- Roles a transcript entry can carry. -/
inductive Role
  | user
  | assistant
  | system
deriving DecidableEq

/-- Message modes (`MessageMode` in the sources). -/
inductive MessageMode
  | chat
  | analysis
  | hybrid
deriving DecidableEq

/-- Content types (`ContentType` in the sources). -/
inductive ContentType
  | website
  | mobile_app
  | desktop_app
  | game
  | other
deriving DecidableEq

/-- The classifier's output type (`DetectedMode` in the sources, full
orchestrator variant with the `figma` and `url` modes). -/
inductive DetectedMode
  | chat
  | analysis
  | hybrid
  | idle
  | figma
  | url
deriving DecidableEq

/-- Phases of the conversational context gathering (`ContextGatheringPhase`).
The source union type also lists `complete`, although the orchestrator never
assigns it. -/
inductive ContextGatheringPhase
  | idle
  | asking_users
  | asking_expertise
  | asking_tasks
  | asking_format
  | complete
deriving DecidableEq

/-- Phases of the analysis pipeline (`AnalysisPhase`). -/
inductive AnalysisPhase
  | idle
  | estimating
  | previewing
  | analyzing
  | complete
deriving DecidableEq

/-! ## URL detection

The sources use two JavaScript regexes:

  FIGMA_URL_PATTERN   = /https?:\/\/(www\.)?figma\.com\/(file|design|proto)\/[a-zA-Z0-9]+/i
  WEBSITE_URL_PATTERN = /^https?:\/\/[^\s]+$/i

Both are modelled character by character.  The `/i` flag is modelled with
`Char.toLower` (adequate for the ASCII pattern letters involved), and `\s`
with the ASCII whitespace characters. -/

/-- ASCII whitespace as matched by the JavaScript `\s` class (restricted to
its ASCII members: space, tab, newline, carriage return, vertical tab and
form feed). -/
def isJsSpace (c : Char) : Bool :=
  c == ' ' || c == '\t' || c == '\n' || c == '\r' || c.toNat == 11 || c.toNat == 12

/-- ASCII letters and digits, the `[a-zA-Z0-9]` class. -/
def isAsciiAlnum (c : Char) : Bool :=
  c.isAlpha || c.isDigit

/-- JavaScript `String.prototype.trim()` (restricted to the ASCII whitespace
characters of `isJsSpace`): strips leading and trailing whitespace. -/
def jsTrim (s : String) : String :=
  String.mk (((s.data.dropWhile isJsSpace).reverse.dropWhile isJsSpace).reverse)

/-- JavaScript `String.prototype.toLowerCase()` (ASCII case mapping). -/
def jsToLower (s : String) : String :=
  String.mk (s.data.map Char.toLower)

/-- Case-insensitive literal matching: `matchLower pat cs` consumes the
(lower-case) pattern `pat` from the front of `cs` and returns the remainder,
or `none` when the literal does not match. -/
def matchLower : List Char → List Char → Option (List Char)
  | [], cs => some cs
  | _ :: _, [] => none
  | p :: ps, c :: cs => if c.toLower = p then matchLower ps cs else none

/-- One attempt of `FIGMA_URL_PATTERN` at the head of `cs`: returns the
remainder after the (greedy) match.  The optional groups `s?` and
`(www\.)?` are deterministic here because the alternative continuations
start with distinct characters. -/
def figmaMatchRem (cs : List Char) : Option (List Char) :=
  match matchLower "http".data cs with
  | none => none
  | some r1 =>
    let r2 := match matchLower "s".data r1 with
      | some r => r
      | none => r1
    match matchLower "://".data r2 with
    | none => none
    | some r3 =>
      let r4 := match matchLower "www.".data r3 with
        | some r => r
        | none => r3
      match matchLower "figma.com/".data r4 with
      | none => none
      | some r5 =>
        let alt := match matchLower "file".data r5 with
          | some r => some r
          | none => match matchLower "design".data r5 with
            | some r => some r
            | none => matchLower "proto".data r5
        match alt with
        | none => none
        | some r6 =>
          match matchLower "/".data r6 with
          | none => none
          | some r7 =>
            match r7 with
            | [] => none
            | c :: rest =>
              if isAsciiAlnum c then some (rest.dropWhile isAsciiAlnum) else none

/-- Leftmost match of `FIGMA_URL_PATTERN` in the character list: returns the
matched substring (the `match[0]` of the source). -/
def firstFigmaMatch : List Char → Option (List Char)
  | [] => none
  | c :: cs =>
    match figmaMatchRem (c :: cs) with
    | some rem => some ((c :: cs).take ((c :: cs).length - rem.length))
    | none => firstFigmaMatch cs

/-- Anchored test of `WEBSITE_URL_PATTERN` (`^https?:\/\/[^\s]+$`). -/
def websiteUrlTest (t : String) : Bool :=
  match matchLower "http".data t.data with
  | none => false
  | some r1 =>
    let r2 := match matchLower "s".data r1 with
      | some r => r
      | none => r1
    match matchLower "://".data r2 with
    | none => false
    | some rest => !rest.isEmpty && rest.all (fun c => !(isJsSpace c))

/-- The two URL kinds the client distinguishes. -/
inductive UrlType
  | figma
  | url
deriving DecidableEq

/-- `detectUrlType` from the sources: Figma pattern first, then the generic
website pattern provided the trimmed text has no internal space. -/
def detectUrlType (text : String) : Option UrlType :=
  let trimmed := jsTrim text
  if (firstFigmaMatch trimmed.data).isSome then some UrlType.figma
  else if websiteUrlTest trimmed && !(trimmed.data.any (fun c => c == ' ')) then
    some UrlType.url
  else none

/-- `extractUrl` from the sources: the first Figma match, else the whole
trimmed text when it matches the anchored website pattern. -/
def extractUrl (text : String) : Option String :=
  let trimmed := jsTrim text
  match firstFigmaMatch trimmed.data with
  | some m => some (String.mk m)
  | none =>
    if websiteUrlTest trimmed then some trimmed else none

/-- `hasFullContext` from the sources (full orchestrator variant, including
the expertise field). -/
def hasFullContext (users expertise tasks format : String) : Bool :=
  decide (10 ≤ (jsTrim users).length) &&
  decide (5 ≤ (jsTrim expertise).length) &&
  decide (10 ≤ (jsTrim tasks).length) &&
  decide (10 ≤ (jsTrim format).length)

/-- `detectMode` from the sources (full orchestrator variant).  Files are
identified by their names. -/
def detectMode (inputText : String) (files : List String)
    (users expertise tasks format : String) (detectedUrl : Option String) :
    DetectedMode :=
  let hasText := decide (0 < (jsTrim inputText).length)
  let hasFiles := decide (0 < files.length)
  let hasContext :=
    decide (10 ≤ (jsTrim users).length) &&
    decide (5 ≤ (jsTrim expertise).length) &&
    decide (10 ≤ (jsTrim tasks).length) &&
    decide (10 ≤ (jsTrim format).length)
  let urlMode : Option DetectedMode :=
    match detectedUrl with
    | some u =>
      match detectUrlType u with
      | some UrlType.figma => some DetectedMode.figma
      | some UrlType.url => some DetectedMode.url
      | none => none
    | none => none
  match urlMode with
  | some m => m
  | none =>
    if !hasText && !hasFiles then DetectedMode.idle
    else if hasFiles && hasContext then DetectedMode.analysis
    else if hasFiles && hasText && !hasContext then DetectedMode.hybrid
    else if hasFiles && !hasText && !hasContext then DetectedMode.analysis
    else DetectedMode.chat

/-! ## Transcript entries and collaborator payloads -/

/-- A transcript entry (`ChatMessage` in the sources, minus the generated id
and wall-clock timestamp, which the orchestrator never branches on). -/
structure Entry where
  role : Role
  content : String
  mode : MessageMode
  reportHtml : Option String := none
deriving DecidableEq

/-- `ReportStatistics` from the sources. -/
structure ReportStatistics where
  total_issues : Nat
  critical_count : Nat
  moderate_count : Nat
  minor_count : Nat
  positive_count : Nat
  traps_not_found_count : Nat
  summary_length : Nat
deriving DecidableEq

/-- `single_image` / `multi_image` / `video` input types. -/
inductive InputType
  | single_image
  | multi_image
  | video
deriving DecidableEq

/-- `EstimateResponse` from the sources (file-based estimates).  The dollar
amounts are decimal literals in the source (`0.1`, `0.3`); they are
represented exactly in fixed-point tenths of a dollar. -/
structure EstimateResponse where
  success : Bool
  input_type : InputType
  file_count : Nat
  total_size_mb : Nat
  time_min_seconds : Nat
  time_max_seconds : Nat
  time_min_formatted : String
  time_max_formatted : String
  cost_min_credits : Nat
  cost_max_credits : Nat
  cost_min_dollar_tenths : Nat
  cost_max_dollar_tenths : Nat
  ffmpeg_available : Bool
deriving DecidableEq

/-- `FigmaEstimateResponse` from the sources. -/
structure FigmaEstimateResponse where
  success : Bool
  file_name : String
  frame_count : Nat
  has_prototype_flows : Bool
  flow_count : Nat
  time_min_seconds : Nat
  time_max_seconds : Nat
  time_description : String
  cost_credits : Nat
  cost_description : String
  figma_available : Bool
deriving DecidableEq

/-- `UrlEstimateResponse` from the sources. -/
structure UrlEstimateResponse where
  success : Bool
  url : String
  estimated_pages : Nat
  time_min_seconds : Nat
  time_max_seconds : Nat
  time_description : String
  cost_credits : Nat
  cost_description : String
  playwright_available : Bool
deriving DecidableEq

/-- `UnifiedEstimate` from the sources: the union of the three estimate
response shapes. -/
inductive UnifiedEstimate
  | file (e : EstimateResponse)
  | figma (e : FigmaEstimateResponse)
  | url (e : UrlEstimateResponse)
deriving DecidableEq

/-- `UnifiedAskResponse` from the sources (fields the orchestrator reads). -/
structure UnifiedAskResponse where
  success : Bool
  mode : MessageMode
  response : Option String := none
  report_html : Option String := none
  statistics : Option ReportStatistics := none
deriving DecidableEq

/-- `SiteAnalysisResponse` (Figma / website analysis result; fields the
orchestrator reads). -/
structure SiteAnalysisResponse where
  success : Bool
  report_html : Option String := none
  statistics : Option ReportStatistics := none
deriving DecidableEq

/-- `UserContext` as sent with analysis requests (full variant with
expertise). -/
structure UserContext where
  users : String
  expertise : String
  tasks : String
  format : String
  contentType : ContentType
deriving DecidableEq

/-- A history item as forwarded to the backend: `\x7b role, content \x7d`. -/
structure HistoryItem where
  role : Role
  content : String
deriving DecidableEq

/-! ## Conversation history assembly

Both `useChat.sendMessage` and `runAnalysis` forward
`messages.filter(m => m.role === 'user' || (m.role === 'assistant' && !m.reportHtml)).slice(-n).map(m => (\x7b role: m.role, content: m.content \x7d))`
with `n = 10` (the literal in `runAnalysis`, and `useChat`'s `maxHistory`
default, which the orchestrator does not override). -/

/-- The history filter predicate from the sources. -/
def historyKeep (m : Entry) : Bool :=
  m.role == Role.user || (m.role == Role.assistant && m.reportHtml == none)

/-- `filter(...).slice(-n)` from the sources; JavaScript `slice(-n)` on a
list shorter than `n` returns the whole list, which truncated subtraction
reproduces. -/
def historyEntries (n : Nat) (msgs : List Entry) : List Entry :=
  let h := msgs.filter historyKeep
  h.drop (h.length - n)

/-- The conversation history forwarded with analysis and chat requests. -/
def conversationHistory (msgs : List Entry) : List HistoryItem :=
  (historyEntries 10 msgs).map (fun m => { role := m.role, content := m.content })

/-! ## Requests, completion events and orchestrator state -/

/-- The network-style operations the orchestrator can issue, with the
arguments it passes. -/
inductive Request
  | estimateFiles (files : List String)
  | estimateFigma (figmaUrl : String)
  | estimateUrl (url : String) (maxPages : Nat)
  | analyzeFigmaReq (figmaUrl : String) (ctx : UserContext) (maxFrames : Nat)
  | analyzeUrlReq (url : String) (ctx : UserContext) (maxPages : Nat)
  | unifiedAskReq (message : Option String) (files : List String)
      (ctx : UserContext) (history : List HistoryItem)
  | chatReq (message : String) (history : List HistoryItem)
deriving DecidableEq

/-- One invocation of the `onAnalysisComplete` callback. -/
structure CompletionEvent where
  result : UnifiedAskResponse
  fileNames : List String
deriving DecidableEq

/-- The orchestrator's state: the hook's `useState` cells, the elapsed-time
tracker, the transcript, plus two effect logs (`issued` network calls and
`completions` callback invocations). -/
structure OrchState where
  token : String
  inputText : String
  files : List String
  users : String
  expertise : String
  tasks : String
  format : String
  contentType : ContentType
  contextGatheringPhase : ContextGatheringPhase
  pendingQuestion : String
  analysisPhase : AnalysisPhase
  estimate : Option UnifiedEstimate
  pendingUrl : Option String
  elapsedRunning : Bool
  elapsedTime : Nat
  isUnifiedLoading : Bool
  messages : List Entry
  issued : List Request
  completions : List CompletionEvent
deriving DecidableEq

/-- The `UserContext` built from the current context fields (as in
`runAnalysis`). -/
def currentContext (s : OrchState) : UserContext :=
  { users := s.users, expertise := s.expertise, tasks := s.tasks,
    format := s.format, contentType := s.contentType }

/-- Modelled from the spec: `addUserMessage` of the transcript assembler
(the `useChat` variant the full orchestrator composes is not among the
sources; per §4.5 each user submission becomes one transcript entry in call
order).  Appends one user-role entry with the given mode. -/
def addUserMessage (content : String) (mode : MessageMode) (msgs : List Entry) :
    List Entry :=
  msgs ++ [{ role := Role.user, content := content, mode := mode }]

/-- Modelled from the spec: `addSystemPrompt` of the transcript assembler
(see `addUserMessage`; per §4.5 each system prompt or progress/failure
notice becomes one transcript entry).  Appends one system-role entry. -/
def addSystemPrompt (content : String) (msgs : List Entry) : List Entry :=
  msgs ++ [{ role := Role.system, content := content, mode := MessageMode.chat }]

/-! ## Fallback estimates (synthesized on estimation failure) -/

/-- The fallback Figma estimate synthesized in `startEstimation`'s catch
branch. -/
def fallbackFigmaEstimate : FigmaEstimateResponse :=
  { success := true, file_name := "Figma file", frame_count := 5,
    has_prototype_flows := false, flow_count := 0,
    time_min_seconds := 120, time_max_seconds := 300,
    time_description := "2-5 minutes",
    cost_credits := 5, cost_description := "~5 credits",
    figma_available := true }

/-- The fallback website estimate synthesized in `startEstimation`'s catch
branch. -/
def fallbackUrlEstimate (u : String) : UrlEstimateResponse :=
  { success := true, url := u, estimated_pages := 5,
    time_min_seconds := 200, time_max_seconds := 400,
    time_description := "3-7 minutes",
    cost_credits := 5, cost_description := "~5 credits",
    playwright_available := true }

/-- The fallback file estimate synthesized in `startEstimation`'s catch
branch (`files.length > 1 ? 'multi_image' : 'single_image'`). -/
def fallbackFileEstimate (fileCount : Nat) : EstimateResponse :=
  { success := true,
    input_type := if 1 < fileCount then InputType.multi_image else InputType.single_image,
    file_count := fileCount, total_size_mb := 0,
    time_min_seconds := 30, time_max_seconds := 120,
    time_min_formatted := "30 seconds", time_max_formatted := "2 minutes",
    cost_min_credits := 1, cost_max_credits := 1,
    cost_min_dollar_tenths := 1, cost_max_dollar_tenths := 3,
    ffmpeg_available := false }

/-- Which fallback estimate the catch branch synthesizes, by target. -/
def fallbackEstimateFor (urlToAnalyze : Option String) (files : List String) :
    UnifiedEstimate :=
  match urlToAnalyze with
  | some u =>
    if detectUrlType u = some UrlType.figma then UnifiedEstimate.figma fallbackFigmaEstimate
    else UnifiedEstimate.url (fallbackUrlEstimate u)
  | none => UnifiedEstimate.file (fallbackFileEstimate files.length)

/-! ## Transcript prompt texts (verbatim from the sources) -/

def promptUsersTooShort : String :=
  "That response is a bit too short. Please provide more detail (at least 10 characters) about who the users are.\n\n*(e.g., \"Adults ages 25-45 looking to stream movies\", \"Enterprise software developers\")*"

def promptAskExpertise : String :=
  "Got it. **What level of expertise will these users have** with this product?\n\n*(e.g., \"First-time users unfamiliar with the domain\", \"Intermediate users with some experience\", \"Power users with years of experience\")*"

def promptExpertiseTooShort : String :=
  "Please provide a bit more detail about the users\x27 expertise level (at least 5 characters).\n\n*(e.g., \"First-time users\", \"Intermediate\", \"Power users\")*"

def promptAskTasks : String :=
  "Thanks. Now, **what tasks are these users trying to accomplish?**\n\n*(e.g., \"Find and play a movie\", \"Sign up for an account\", \"Complete a purchase\")*"

def promptTasksTooShort : String :=
  "That response is a bit too short. Please provide more detail (at least 10 characters) about the tasks.\n\n*(e.g., \"Find and play a movie\", \"Sign up for an account and complete a purchase\")*"

def promptAskFormat : String :=
  "Thanks. Finally, **what format is this design?**\n\n*(e.g., \"Mobile app screenshot\", \"Desktop website\", \"Tablet app\")*"

def promptFormatTooShort : String :=
  "Please provide more detail about the format (at least 10 characters).\n\n*(e.g., \"Mobile app screenshot\", \"Desktop website layout\", \"Tablet application UI\")*"

def promptAllSet : String :=
  "All set! Let me estimate how long this analysis will take..."

def introWhoUsers : String :=
  "**Who are the intended users** of this interface?\n\n*(e.g., \"Adults ages 25-45 looking to stream movies\", \"Enterprise software developers\")*"

def promptFilesGathering : String :=
  "I\x27d be happy to analyze this for UI traps! First, I need a bit of context.\n\n" ++ introWhoUsers

def estimateFailText (msg : String) : String :=
  "Could not get estimate: " ++ msg ++ ". Please click **Start Analysis** below to proceed without an estimate."

/-- The re-prompt text each gathering state uses when validation fails. -/
def repromptText : ContextGatheringPhase → String
  | ContextGatheringPhase.asking_users => promptUsersTooShort
  | ContextGatheringPhase.asking_expertise => promptExpertiseTooShort
  | ContextGatheringPhase.asking_tasks => promptTasksTooShort
  | ContextGatheringPhase.asking_format => promptFormatTooShort
  | _ => ""

/-- The minimum answer length each gathering state validates against
(10 characters, except 5 for expertise). -/
def gatherMin : ContextGatheringPhase → Nat
  | ContextGatheringPhase.asking_expertise => 5
  | _ => 10

/-! ## Helpers used by submit -/

/-- `hay` contains `needle` as a contiguous substring (JavaScript
`String.includes`). -/
def listContainsSub (hay needle : List Char) : Bool :=
  needle.isPrefixOf hay ||
    match hay with
    | [] => false
    | _ :: tl => listContainsSub tl needle

/-- JavaScript `hay.includes(needle)`. -/
def strIncludes (hay needle : String) : Bool :=
  listContainsSub hay.data needle.data

/-- The content-type auto-detection performed on the final format answer. -/
def autoContentType (answer : String) (ct : ContentType) : ContentType :=
  let lowerAnswer := jsToLower answer
  if strIncludes lowerAnswer "mobile" || strIncludes lowerAnswer "ios" ||
      strIncludes lowerAnswer "android" then ContentType.mobile_app
  else if strIncludes lowerAnswer "desktop" || strIncludes lowerAnswer "windows" ||
      strIncludes lowerAnswer "mac" then ContentType.desktop_app
  else if strIncludes lowerAnswer "game" then ContentType.game
  else if strIncludes lowerAnswer "web" || strIncludes lowerAnswer "site" then
    ContentType.website
  else ct

/-- Model of `new URL(u).hostname`, restricted to the http(s) URLs this
client accepts: the authority part after the scheme (and after any
user-info `@`), up to the first `/`, `?`, `#` or `:`, lower-cased.  Used
only for transcript label text. -/
def urlHostname (u : String) : String :=
  let cs := u.data
  let rest :=
    match matchLower "http".data cs with
    | none => cs
    | some r1 =>
      let r2 := match matchLower "s".data r1 with
        | some r => r
        | none => r1
      match matchLower "://".data r2 with
      | none => cs
      | some r => r
  let authority := rest.takeWhile (fun c => !(c == '/' || c == '?' || c == '#'))
  let afterUser :=
    if authority.any (fun c => c == '@') then
      (authority.reverse.takeWhile (fun c => !(c == '@'))).reverse
    else authority
  String.mk ((afterUser.takeWhile (fun c => !(c == ':'))).map Char.toLower)

/-! ## The pipeline step functions

Each `async` function of the orchestrator is split at its await point into a
synchronous start function (run up to and including issuing the network
call) and a resume function applied when the call settles.  On the success
path of `runAnalysis` the source sets the phase to `complete` and then,
still in the same continuation, back to `idle`; the resume functions model
the net effect of the whole continuation. -/

/-- `cancelAnalysis`: `elapsed.reset()` (stops the stopwatch and zeroes it),
phase to `idle`, estimate discarded, loading cleared. -/
def cancelAnalysis (s : OrchState) : OrchState :=
  { s with elapsedRunning := false, elapsedTime := 0,
           analysisPhase := AnalysisPhase.idle, estimate := none,
           isUnifiedLoading := false }

/-- Which estimate request `startEstimation` issues for the given target
(`getFigmaEstimate`, `getUrlEstimate` with `maxPages` 10, or `getEstimate`
over the current files). -/
def estimateRequestFor (urlToAnalyze : Option String) (files : List String) :
    Request :=
  match urlToAnalyze with
  | some u =>
    if detectUrlType u = some UrlType.figma then Request.estimateFigma u
    else Request.estimateUrl u 10
  | none => Request.estimateFiles files

/-- Synchronous prefix of `startEstimation`: phase to `estimating`, loading
set, the estimate request issued. -/
def startEstimationStart (urlToAnalyze : Option String) (s : OrchState) :
    OrchState :=
  { s with analysisPhase := AnalysisPhase.estimating, isUnifiedLoading := true,
           issued := s.issued ++ [estimateRequestFor urlToAnalyze s.files] }

/-- Continuation of `startEstimation` once the estimate call settles.  On
success the estimate is stored and the phase moves to `previewing`; on
failure a diagnostic system message is appended, a fallback estimate is
synthesized, and the phase still moves to `previewing`.  On the URL path
the pending URL is recorded in both cases. -/
def startEstimationResume (urlToAnalyze : Option String)
    (outcome : Except String UnifiedEstimate) (s : OrchState) : OrchState :=
  match outcome with
  | Except.ok est =>
    { s with pendingUrl := match urlToAnalyze with
               | some u => some u
               | none => s.pendingUrl,
             estimate := some est,
             analysisPhase := AnalysisPhase.previewing,
             isUnifiedLoading := false }
  | Except.error msg =>
    { s with messages := addSystemPrompt (estimateFailText msg) s.messages,
             pendingUrl := match urlToAnalyze with
               | some u => some u
               | none => s.pendingUrl,
             estimate := some (fallbackEstimateFor urlToAnalyze s.files),
             analysisPhase := AnalysisPhase.previewing,
             isUnifiedLoading := false }

/-- Which analysis request `runAnalysis` issues: `analyzeFigma` (maxFrames
10) or `analyzeUrl` (maxPages 10) when a URL is pending, else `unifiedAsk`
over the current files with `pendingQuestion || undefined` and the
conversation history. -/
def analysisRequestFor (s : OrchState) : Request :=
  match s.pendingUrl with
  | some u =>
    if detectUrlType u = some UrlType.figma then
      Request.analyzeFigmaReq u (currentContext s) 10
    else
      Request.analyzeUrlReq u (currentContext s) 10
  | none =>
    Request.unifiedAskReq
      (if s.pendingQuestion = "" then none else some s.pendingQuestion)
      s.files (currentContext s) (conversationHistory s.messages)

/-- Synchronous prefix of `runAnalysis`: phase to `analyzing`, the elapsed
stopwatch started fresh, loading set, the analysis request issued. -/
def runAnalysisStart (s : OrchState) : OrchState :=
  { s with analysisPhase := AnalysisPhase.analyzing,
           elapsedRunning := true, elapsedTime := 0,
           isUnifiedLoading := true,
           issued := s.issued ++ [analysisRequestFor s] }

/-- How the awaited analysis call settles: a site-analysis payload (URL
path), a unified-ask payload (file path), or a thrown error message. -/
inductive AnalysisOutcome
  | siteOk (r : SiteAnalysisResponse)
  | askOk (r : UnifiedAskResponse)
  | failed (msg : String)
deriving DecidableEq

/-- Continuation of `runAnalysis` once the analysis call settles.  The
outcome shape always corresponds to the branch that issued the request; the
two mismatched combinations are unreachable and left as the identity. -/
def runAnalysisResume (s : OrchState) (outcome : AnalysisOutcome) : OrchState :=
  match outcome with
  | AnalysisOutcome.failed msg =>
    { s with elapsedRunning := false,
             messages := addSystemPrompt ("Analysis failed: " ++ msg) s.messages,
             analysisPhase := AnalysisPhase.idle, estimate := none,
             pendingUrl := none, isUnifiedLoading := false }
  | AnalysisOutcome.siteOk r =>
    match s.pendingUrl with
    | some u =>
      let analysisName :=
        if detectUrlType u = some UrlType.figma then "Figma file" else urlHostname u
      let comps :=
        if r.success then
          s.completions ++
            [{ result := { success := true, mode := MessageMode.analysis,
                           report_html := r.report_html, statistics := r.statistics },
               fileNames := [analysisName] }]
        else s.completions
      { s with elapsedRunning := false,
               completions := comps,
               messages := addSystemPrompt
                 ("Analysis completed for " ++ analysisName ++ ". View the full report above.")
                 s.messages,
               inputText := "", files := [], pendingQuestion := "",
               pendingUrl := none, analysisPhase := AnalysisPhase.idle,
               estimate := none, isUnifiedLoading := false }
    | none => s
  | AnalysisOutcome.askOk r =>
    match s.pendingUrl with
    | some _ => s
    | none =>
      let fileNames := s.files
      let comps :=
        if r.mode = MessageMode.analysis ∨ r.mode = MessageMode.hybrid then
          s.completions ++ [{ result := r, fileNames := fileNames }]
        else s.completions
      { s with elapsedRunning := false,
               completions := comps,
               messages := addSystemPrompt
                 ("Analysis completed for " ++ String.intercalate ", " fileNames ++
                   ". View the full report above.")
                 s.messages,
               inputText := "", files := [], pendingQuestion := "",
               pendingUrl := none, analysisPhase := AnalysisPhase.idle,
               estimate := none, isUnifiedLoading := false }

/-- `confirmAnalysis` simply invokes `runAnalysis`. -/
def confirmAnalysisStart (s : OrchState) : OrchState :=
  runAnalysisStart s

/-- Synchronous prefix of `useChat.sendMessage`: empty messages and missing
tokens are ignored; otherwise the user entry is appended and the chat
request issued.  The history is built from the `messages` value captured
before the append (the source closes over the pre-append list). -/
def sendMessageStart (message : String) (s : OrchState) : OrchState :=
  if jsTrim message = "" ∨ s.token = "" then s
  else
    { s with messages := s.messages ++
               [{ role := Role.user, content := message, mode := MessageMode.chat }],
             issued := s.issued ++ [Request.chatReq message (conversationHistory s.messages)] }

/-- Synchronous prefix of `submit()`, covering the whole body up to (and
including) the first network issuance: the context-gathering branch, the
idle guard, pure chat, the Figma/URL branch and the files branch.  Branches
that call `startEstimation` include its synchronous prefix, since `submit`
awaits it. -/
def submitStep (s : OrchState) : OrchState :=
  if s.token = "" then s
  else if s.contextGatheringPhase ≠ ContextGatheringPhase.idle then
    let answer := jsTrim s.inputText
    if answer = "" then s
    else
      let s1 := { s with messages := addUserMessage answer MessageMode.analysis s.messages,
                         inputText := "" }
      match s.contextGatheringPhase with
      | ContextGatheringPhase.asking_users =>
        if (jsTrim answer).length < 10 then
          { s1 with messages := addSystemPrompt promptUsersTooShort s1.messages }
        else
          { s1 with users := answer,
                    contextGatheringPhase := ContextGatheringPhase.asking_expertise,
                    messages := addSystemPrompt promptAskExpertise s1.messages }
      | ContextGatheringPhase.asking_expertise =>
        if (jsTrim answer).length < 5 then
          { s1 with messages := addSystemPrompt promptExpertiseTooShort s1.messages }
        else
          { s1 with expertise := answer,
                    contextGatheringPhase := ContextGatheringPhase.asking_tasks,
                    messages := addSystemPrompt promptAskTasks s1.messages }
      | ContextGatheringPhase.asking_tasks =>
        if (jsTrim answer).length < 10 then
          { s1 with messages := addSystemPrompt promptTasksTooShort s1.messages }
        else
          { s1 with tasks := answer,
                    contextGatheringPhase := ContextGatheringPhase.asking_format,
                    messages := addSystemPrompt promptAskFormat s1.messages }
      | ContextGatheringPhase.asking_format =>
        if (jsTrim answer).length < 10 then
          { s1 with messages := addSystemPrompt promptFormatTooShort s1.messages }
        else
          let s2 := { s1 with format := answer,
                              contextGatheringPhase := ContextGatheringPhase.idle,
                              contentType := autoContentType answer s1.contentType,
                              messages := addSystemPrompt promptAllSet s1.messages }
          startEstimationStart s2.pendingUrl s2
      | _ => s1
  else
    let mode := detectMode s.inputText s.files s.users s.expertise s.tasks s.format
      (extractUrl s.inputText)
    if mode = DetectedMode.idle then s
    else if mode = DetectedMode.chat then
      sendMessageStart (jsTrim s.inputText) { s with inputText := "" }
    else if mode = DetectedMode.figma ∨ mode = DetectedMode.url then
      let url := (extractUrl s.inputText).getD ""
      let urlLabel := if mode = DetectedMode.figma then "Figma file" else urlHostname url
      let s1 := { s with
        pendingUrl := some url,
        messages := addUserMessage
          ("Analyze this " ++
            (if mode = DetectedMode.figma then "Figma design" else "website") ++
            ": " ++ url)
          MessageMode.analysis s.messages,
        inputText := "" }
      if hasFullContext s.users s.expertise s.tasks s.format then
        startEstimationStart (some url)
          { s1 with messages := addSystemPrompt
                      ("Starting analysis of " ++ urlLabel ++ "...") s1.messages }
      else
        { s1 with contextGatheringPhase := ContextGatheringPhase.asking_users,
                  messages := addSystemPrompt
                    ("I\x27ll analyze **" ++ urlLabel ++
                      "** for UI traps! First, I need a bit of context.\n\n" ++ introWhoUsers)
                    s1.messages }
    else
      let fileNames := String.intercalate ", " s.files
      let userText := jsTrim s.inputText
      let userContent :=
        if userText ≠ "" then userText ++ "\n\n*Attached: " ++ fileNames ++ "*"
        else "*Attached for analysis: " ++ fileNames ++ "*"
      let s1 := { s with messages := addUserMessage userContent MessageMode.analysis s.messages,
                         pendingQuestion := userText, inputText := "" }
      if hasFullContext s.users s.expertise s.tasks s.format then
        startEstimationStart none s1
      else
        { s1 with contextGatheringPhase := ContextGatheringPhase.asking_users,
                  messages := addSystemPrompt promptFilesGathering s1.messages }

/-! ## API-client timeouts

Each API function destructures `timeout = <default>` from its options; the
functions below model that destructuring (milliseconds). -/

/-- `analyzeImage`: `timeout = 120000`. -/
def analyzeImageTimeout (timeout : Option Nat) : Nat := timeout.getD 120000

/-- `analyzeMultiImage`: `timeout = 600000`. -/
def analyzeMultiImageTimeout (timeout : Option Nat) : Nat := timeout.getD 600000

/-- `analyzeVideo`: `timeout = 900000`. -/
def analyzeVideoTimeout (timeout : Option Nat) : Nat := timeout.getD 900000

/-- `getEstimate`: `timeout = 30000`. -/
def getEstimateTimeout (timeout : Option Nat) : Nat := timeout.getD 30000

/-- `sendChatMessage`: `timeout = 60000`. -/
def sendChatMessageTimeout (timeout : Option Nat) : Nat := timeout.getD 60000

/-- `unifiedAsk`: `timeout = 120000`. -/
def unifiedAskTimeout (timeout : Option Nat) : Nat := timeout.getD 120000

/-- `getFigmaEstimate`: `timeout = 30000`. -/
def getFigmaEstimateTimeout (timeout : Option Nat) : Nat := timeout.getD 30000

/-- `getUrlEstimate`: `timeout = 30000`. -/
def getUrlEstimateTimeout (timeout : Option Nat) : Nat := timeout.getD 30000

/-- `analyzeFigma`: `timeout = 1800000`. -/
def analyzeFigmaTimeout (timeout : Option Nat) : Nat := timeout.getD 1800000

/-- `analyzeUrl`: `timeout = 600000`. -/
def analyzeUrlTimeout (timeout : Option Nat) : Nat := timeout.getD 600000

/-! ## Transcript message ids

`useChat` generates ids with a module-level counter:
`msg-$\x7bDate.now()\x7d-$\x7b++messageIdCounter\x7d`.  The decimal rendering of the
two nonnegative integers is modelled by `repList` (fuel-based so that it
reduces structurally). -/

/-- The decimal digit characters. -/
def digitChar : Nat → Char
  | 0 => '0'
  | 1 => '1'
  | 2 => '2'
  | 3 => '3'
  | 4 => '4'
  | 5 => '5'
  | 6 => '6'
  | 7 => '7'
  | 8 => '8'
  | 9 => '9'
  | _ => '*'

/-- Fuel-based decimal rendering helper (most significant digit first). -/
def repAux : Nat → Nat → List Char
  | 0, _ => []
  | fuel + 1, n =>
    if n < 10 then [digitChar n]
    else repAux fuel (n / 10) ++ [digitChar (n % 10)]

/-- Decimal rendering of a natural number, as JavaScript template
interpolation renders a nonnegative integer. -/
def repList (n : Nat) : List Char := repAux (n + 1) n

/-- The id string `msg-$\x7bnow\x7d-$\x7bcounter\x7d`. -/
def mkId (now counter : Nat) : String :=
  String.mk ('m' :: 's' :: 'g' :: '-' :: (repList now ++ '-' :: repList counter))

/-- The module-level `messageIdCounter` cell. -/
structure IdGen where
  counter : Nat
deriving DecidableEq

/-- `generateId`: pre-increments the counter and renders the id from the
current time and the new counter value. -/
def generateId (now : Nat) (g : IdGen) : String × IdGen :=
  (mkId now (g.counter + 1), { counter := g.counter + 1 })

/-- A run of sequential transcript appends at the given timestamps: each
append draws one id from `generateId`; the result pairs every generated id
with its counter component. -/
def runGenC (g : IdGen) : List Nat → List (String × Nat)
  | [] => []
  | t :: ts =>
    let p := generateId t g
    (p.1, p.2.counter) :: runGenC p.2 ts

/-- Decimal evaluation of a digit string (used to invert `repList`). -/
def decimalVal (cs : List Char) : Nat :=
  cs.foldl (fun a c => 10 * a + (c.toNat - 48)) 0

/-! ## Sample states used in the concrete evaluations -/

set_option maxRecDepth 10000

/-- A representative orchestrator state: a valid token, one attached image,
all four context fields meeting their minimum lengths, everything else
idle and empty. -/
def baseState : OrchState :=
  { token := "t", inputText := "", files := ["a.png"],
    users := "end users aged 30", expertise := "expert",
    tasks := "buy things online today", format := "desktop web page",
    contentType := ContentType.website,
    contextGatheringPhase := ContextGatheringPhase.idle,
    pendingQuestion := "", analysisPhase := AnalysisPhase.idle,
    estimate := none, pendingUrl := none,
    elapsedRunning := false, elapsedTime := 0, isUnifiedLoading := false,
    messages := [], issued := [], completions := [] }

/-- `baseState` with the analysis call in flight. -/
def analyzingState : OrchState := runAnalysisStart baseState

/-- `analyzingState` after `cancelAnalysis` fires while the call is still
pending. -/
def cancelRaceMid : OrchState := cancelAnalysis analyzingState

/-- `cancelRaceMid` after the in-flight analysis call settles successfully,
late: the source continuation runs with no generation or token check. -/
def cancelRaceLate : OrchState :=
  runAnalysisResume cancelRaceMid
    (AnalysisOutcome.askOk
      { success := true, mode := MessageMode.analysis, report_html := some "<p>r</p>" })

/-- `baseState` waiting in `asking_users` with an empty input. -/
def emptyReplyState : OrchState :=
  { baseState with contextGatheringPhase := ContextGatheringPhase.asking_users,
                   users := "" }

/-- `baseState` waiting in `asking_users` with a 4-character reply typed. -/
def shortReplyState : OrchState :=
  { baseState with contextGatheringPhase := ContextGatheringPhase.asking_users,
                   users := "", inputText := "kids" }

/-- `baseState` waiting in `asking_format` with a valid reply typed. -/
def formatReplyState : OrchState :=
  { baseState with contextGatheringPhase := ContextGatheringPhase.asking_format,
                   format := "", inputText := "Desktop website layout" }

/-! ## Claim theorems -/

/-- C1: evaluation at the failing input.  Immediately after `cancelAnalysis`
during `analyzing` the phase is `idle`, the estimate `null` and the elapsed
time `0` (first conjunct block, the part of the claim that holds).  But when
the in-flight call then settles successfully, the continuation still appends
a transcript entry, still invokes the completion callback, and clears the
attached files: the late success is not a no-op, refuting the second part of
the claim. -/
theorem cancel_then_late_success_still_mutates :
    (cancelRaceMid.analysisPhase = AnalysisPhase.idle ∧
      cancelRaceMid.estimate = none ∧
      cancelRaceMid.elapsedTime = 0 ∧
      cancelRaceMid.elapsedRunning = false) ∧
    cancelRaceLate.messages.length = cancelRaceMid.messages.length + 1 ∧
    cancelRaceLate.completions.length = cancelRaceMid.completions.length + 1 ∧
    cancelRaceMid.files = ["a.png"] ∧ cancelRaceLate.files = [] := by
  decide

/-- C2: evaluation at the failing input.  While the Analysis Phase is
`analyzing` (and context gathering is idle), a second `submit()` is not a
no-op: it appends a transcript entry, issues a second network request (the
estimate call), and moves the Analysis Phase back to `estimating` —
`submit` never consults `analysisPhase`. -/
theorem submit_while_analyzing_not_noop :
    analyzingState.analysisPhase = AnalysisPhase.analyzing ∧
    analyzingState.contextGatheringPhase = ContextGatheringPhase.idle ∧
    (submitStep analyzingState).messages.length = analyzingState.messages.length + 1 ∧
    (submitStep analyzingState).issued.length = analyzingState.issued.length + 1 ∧
    (submitStep analyzingState).analysisPhase = AnalysisPhase.estimating := by
  decide

/-- C3: counterexample to the claim as stated.  In `asking_users` an empty
reply is shorter than the 10-character minimum, yet processing it is a
complete no-op: no guidance re-prompt is appended (the claim asserts a
re-prompt for every too-short reply). -/
theorem empty_short_reply_gets_no_reprompt :
    emptyReplyState.contextGatheringPhase = ContextGatheringPhase.asking_users ∧
    (jsTrim emptyReplyState.inputText).length < 10 ∧
    emptyReplyState.token ≠ "" ∧
    submitStep emptyReplyState = emptyReplyState := by
  decide

/-- C3 (amended): in each of the four gathering states, a reply that is
non-empty after trimming but shorter than the field's minimum (10
characters, 5 for expertise) echoes the reply and re-prompts with guidance,
and changes nothing else: the Context-Gathering Phase, every Session Context
field and the rest of the state are untouched. -/
theorem short_nonempty_reply_rejected_in_place (s : OrchState)
    (htok : s.token ≠ "")
    (hphase : s.contextGatheringPhase = ContextGatheringPhase.asking_users ∨
      s.contextGatheringPhase = ContextGatheringPhase.asking_expertise ∨
      s.contextGatheringPhase = ContextGatheringPhase.asking_tasks ∨
      s.contextGatheringPhase = ContextGatheringPhase.asking_format)
    (hne : jsTrim s.inputText ≠ "")
    (hshort : (jsTrim (jsTrim s.inputText)).length < gatherMin s.contextGatheringPhase) :
    submitStep s =
      { s with inputText := "",
               messages := addSystemPrompt (repromptText s.contextGatheringPhase)
                 (addUserMessage (jsTrim s.inputText) MessageMode.analysis s.messages) } := by
  obtain ⟨tok, it, fl, us, ex, ta, fo, ct, ph, pq, ap, est, pu, er, et, ul, ms, iss, cp⟩ := s
  rcases hphase with h|h|h|h <;> subst h <;>
    simp_all [submitStep, gatherMin, repromptText]

/-- C3 witness: the amended theorem applied at `shortReplyState`. -/
theorem short_nonempty_reply_rejected_in_place_witness :
    (shortReplyState.token ≠ "" ∧ jsTrim shortReplyState.inputText ≠ "" ∧
      (jsTrim (jsTrim shortReplyState.inputText)).length <
        gatherMin shortReplyState.contextGatheringPhase) ∧
    submitStep shortReplyState =
      { shortReplyState with
        inputText := "",
        messages := addSystemPrompt (repromptText shortReplyState.contextGatheringPhase)
          (addUserMessage (jsTrim shortReplyState.inputText) MessageMode.analysis
            shortReplyState.messages) } :=
  ⟨⟨by decide, by decide, by decide⟩,
    short_nonempty_reply_rejected_in_place shortReplyState (by decide)
      (Or.inl rfl) (by decide) (by decide)⟩

/-- C4: whenever the estimate request fails, the single resume step still
reaches `previewing`, stores the non-null synthesized fallback estimate for
the detected input type (Figma, website or single/multi image), and appends
one diagnostic system message. -/
theorem estimate_failure_still_previews (urlToAnalyze : Option String)
    (msg : String) (s : OrchState) :
    (startEstimationResume urlToAnalyze (Except.error msg) s).analysisPhase =
      AnalysisPhase.previewing ∧
    (startEstimationResume urlToAnalyze (Except.error msg) s).estimate =
      some (fallbackEstimateFor urlToAnalyze s.files) ∧
    (startEstimationResume urlToAnalyze (Except.error msg) s).estimate ≠ none ∧
    (startEstimationResume urlToAnalyze (Except.error msg) s).messages =
      addSystemPrompt (estimateFailText msg) s.messages := by
  refine ⟨rfl, rfl, ?_, rfl⟩
  simp [startEstimationResume]

/-- C5: counterexample to the claim as stated.  With a non-empty file set
and all context fields meeting their minimums, the classifier nevertheless
does not return `analysis` when the free text carries a detected URL: the
URL rules take precedence and it returns `url`. -/
theorem classifier_url_precedence_overrides_analysis :
    (0 : Nat) < (["a.png"] : List String).length ∧
    10 ≤ (jsTrim "end users aged 30").length ∧
    5 ≤ (jsTrim "expert").length ∧
    10 ≤ (jsTrim "buy things online today").length ∧
    10 ≤ (jsTrim "desktop web page").length ∧
    detectMode "https://example.com" ["a.png"] "end users aged 30" "expert"
      "buy things online today" "desktop web page"
      (extractUrl "https://example.com") = DetectedMode.url ∧
    DetectedMode.url ≠ DetectedMode.analysis := by
  decide

/-- C5 (amended): when additionally no URL is detected in the free text, a
non-empty file set with all context fields at their minimum lengths always
classifies as `analysis` (in particular never `hybrid`); the classifier is a
pure function of its input with the URL rules evaluated first. -/
theorem classifier_analysis_when_no_url (inputText : String) (files : List String)
    (users expertise tasks format : String)
    (hurl : extractUrl inputText = none)
    (hfiles : files ≠ [])
    (hu : 10 ≤ (jsTrim users).length) (he : 5 ≤ (jsTrim expertise).length)
    (ht : 10 ≤ (jsTrim tasks).length) (hf : 10 ≤ (jsTrim format).length) :
    detectMode inputText files users expertise tasks format (extractUrl inputText) =
      DetectedMode.analysis := by
  have hfl : 0 < files.length := List.length_pos.mpr hfiles
  simp [detectMode, hurl, hu, he, ht, hf, hfl]

/-- C5 witness: the amended theorem applied at a concrete input. -/
theorem classifier_analysis_when_no_url_witness :
    (extractUrl "please check this design" = none ∧
      (["b.png"] : List String) ≠ [] ∧
      10 ≤ (jsTrim "end users aged 30").length ∧
      5 ≤ (jsTrim "expert").length ∧
      10 ≤ (jsTrim "buy things online today").length ∧
      10 ≤ (jsTrim "desktop web page").length) ∧
    detectMode "please check this design" ["b.png"] "end users aged 30" "expert"
      "buy things online today" "desktop web page"
      (extractUrl "please check this design") = DetectedMode.analysis :=
  ⟨⟨by decide, by decide, by decide, by decide, by decide, by decide⟩,
    classifier_analysis_when_no_url "please check this design" ["b.png"]
      "end users aged 30" "expert" "buy things online today" "desktop web page"
      (by decide) (by decide) (by decide) (by decide) (by decide) (by decide)⟩

/-- C6: the gathering machine only moves forward.  A valid answer advances
`asking_users → asking_expertise → asking_tasks → asking_format` exactly one
step at a time (from `asking_tasks` it never returns to `asking_users`), and
a valid answer to the final field leaves gathering, moves the Analysis Phase
to `estimating` and issues the estimate request with no further user
action. -/
theorem gathering_advances_forward (s : OrchState)
    (htok : s.token ≠ "") (hne : jsTrim s.inputText ≠ "") :
    (s.contextGatheringPhase = ContextGatheringPhase.asking_users →
      10 ≤ (jsTrim (jsTrim s.inputText)).length →
      (submitStep s).contextGatheringPhase = ContextGatheringPhase.asking_expertise) ∧
    (s.contextGatheringPhase = ContextGatheringPhase.asking_expertise →
      5 ≤ (jsTrim (jsTrim s.inputText)).length →
      (submitStep s).contextGatheringPhase = ContextGatheringPhase.asking_tasks) ∧
    (s.contextGatheringPhase = ContextGatheringPhase.asking_tasks →
      10 ≤ (jsTrim (jsTrim s.inputText)).length →
      (submitStep s).contextGatheringPhase = ContextGatheringPhase.asking_format ∧
      (submitStep s).contextGatheringPhase ≠ ContextGatheringPhase.asking_users) ∧
    (s.contextGatheringPhase = ContextGatheringPhase.asking_format →
      10 ≤ (jsTrim (jsTrim s.inputText)).length →
      (submitStep s).contextGatheringPhase = ContextGatheringPhase.idle ∧
      (submitStep s).analysisPhase = AnalysisPhase.estimating ∧
      (submitStep s).issued = s.issued ++ [estimateRequestFor s.pendingUrl s.files]) := by
  obtain ⟨tok, it, fl, us, ex, ta, fo, ct, ph, pq, ap, est, pu, er, et, ul, ms, iss, cp⟩ := s
  refine ⟨?_, ?_, ?_, ?_⟩ <;> intro h hlen <;> subst h <;>
    simp_all [submitStep, startEstimationStart, Nat.not_lt.mpr hlen]

/-- C6 witness: the theorem applied at `formatReplyState` (a valid final
answer hands control to estimation). -/
theorem gathering_advances_forward_witness :
    (formatReplyState.token ≠ "" ∧ jsTrim formatReplyState.inputText ≠ "") ∧
    ((formatReplyState.contextGatheringPhase = ContextGatheringPhase.asking_users →
      10 ≤ (jsTrim (jsTrim formatReplyState.inputText)).length →
      (submitStep formatReplyState).contextGatheringPhase =
        ContextGatheringPhase.asking_expertise) ∧
    (formatReplyState.contextGatheringPhase = ContextGatheringPhase.asking_expertise →
      5 ≤ (jsTrim (jsTrim formatReplyState.inputText)).length →
      (submitStep formatReplyState).contextGatheringPhase =
        ContextGatheringPhase.asking_tasks) ∧
    (formatReplyState.contextGatheringPhase = ContextGatheringPhase.asking_tasks →
      10 ≤ (jsTrim (jsTrim formatReplyState.inputText)).length →
      (submitStep formatReplyState).contextGatheringPhase =
        ContextGatheringPhase.asking_format ∧
      (submitStep formatReplyState).contextGatheringPhase ≠
        ContextGatheringPhase.asking_users) ∧
    (formatReplyState.contextGatheringPhase = ContextGatheringPhase.asking_format →
      10 ≤ (jsTrim (jsTrim formatReplyState.inputText)).length →
      (submitStep formatReplyState).contextGatheringPhase = ContextGatheringPhase.idle ∧
      (submitStep formatReplyState).analysisPhase = AnalysisPhase.estimating ∧
      (submitStep formatReplyState).issued = formatReplyState.issued ++
        [estimateRequestFor formatReplyState.pendingUrl formatReplyState.files])) :=
  ⟨⟨by decide, by decide⟩,
    gathering_advances_forward formatReplyState (by decide) (by decide)⟩

/-- C7: every terminal failure of the real analysis call appends exactly one
system message describing the failure, resets the Analysis Phase to `idle`
and the estimate to `null`, clears the pending target, stops the stopwatch,
and preserves the context fields and remaining inputs. -/
theorem analysis_failure_resets_to_idle (s : OrchState) (msg : String) :
    (runAnalysisResume s (AnalysisOutcome.failed msg)).messages =
      s.messages ++ [{ role := Role.system, content := "Analysis failed: " ++ msg,
                       mode := MessageMode.chat }] ∧
    (runAnalysisResume s (AnalysisOutcome.failed msg)).analysisPhase =
      AnalysisPhase.idle ∧
    (runAnalysisResume s (AnalysisOutcome.failed msg)).estimate = none ∧
    (runAnalysisResume s (AnalysisOutcome.failed msg)).users = s.users ∧
    (runAnalysisResume s (AnalysisOutcome.failed msg)).expertise = s.expertise ∧
    (runAnalysisResume s (AnalysisOutcome.failed msg)).tasks = s.tasks ∧
    (runAnalysisResume s (AnalysisOutcome.failed msg)).format = s.format ∧
    (runAnalysisResume s (AnalysisOutcome.failed msg)).contentType = s.contentType ∧
    (runAnalysisResume s (AnalysisOutcome.failed msg)).inputText = s.inputText ∧
    (runAnalysisResume s (AnalysisOutcome.failed msg)).files = s.files ∧
    (runAnalysisResume s (AnalysisOutcome.failed msg)).pendingUrl = none ∧
    (runAnalysisResume s (AnalysisOutcome.failed msg)).isUnifiedLoading = false ∧
    (runAnalysisResume s (AnalysisOutcome.failed msg)).elapsedRunning = false :=
  ⟨rfl, rfl, rfl, rfl, rfl, rfl, rfl, rfl, rfl, rfl, rfl, rfl, rfl⟩

/-- C8: the default client timeouts are per operation type and match the
claimed values (chat 60 s, single image 120 s, multi-image 600 s, URL crawl
600 s, video 900 s, Figma 1800 s), with video / multi-image / URL / Figma
strictly above single-image and chat, and every estimate request defaulting
to 30 s. -/
theorem timeout_defaults_ordered :
    sendChatMessageTimeout none = 60000 ∧
    analyzeImageTimeout none = 120000 ∧
    analyzeMultiImageTimeout none = 600000 ∧
    analyzeUrlTimeout none = 600000 ∧
    analyzeVideoTimeout none = 900000 ∧
    analyzeFigmaTimeout none = 1800000 ∧
    getEstimateTimeout none = 30000 ∧
    getFigmaEstimateTimeout none = 30000 ∧
    getUrlEstimateTimeout none = 30000 ∧
    analyzeImageTimeout none < analyzeMultiImageTimeout none ∧
    analyzeImageTimeout none < analyzeUrlTimeout none ∧
    analyzeImageTimeout none < analyzeVideoTimeout none ∧
    analyzeImageTimeout none < analyzeFigmaTimeout none ∧
    sendChatMessageTimeout none < analyzeMultiImageTimeout none ∧
    sendChatMessageTimeout none < analyzeUrlTimeout none ∧
    sendChatMessageTimeout none < analyzeVideoTimeout none ∧
    sendChatMessageTimeout none < analyzeFigmaTimeout none := by
  decide

/-- C9: the history forwarded with analysis and chat requests holds at most
10 items, is a suffix of the filtered transcript (the last entries), and the
filtering happens before truncation, so no assistant entry carrying a report
payload ever survives into it. -/
theorem forwarded_history_capped_and_report_free (msgs : List Entry) :
    (conversationHistory msgs).length ≤ 10 ∧
    historyEntries 10 msgs <:+ msgs.filter historyKeep ∧
    ((historyEntries 10 msgs).all
      (fun m => !(m.role == Role.assistant) || (m.reportHtml == none))) = true := by
  refine ⟨?_, ?_, ?_⟩
  · unfold conversationHistory historyEntries
    rw [List.length_map, List.length_drop]
    omega
  · unfold historyEntries
    exact List.drop_suffix _ _
  · rw [List.all_eq_true]
    intro m hm
    have hmem : m ∈ msgs.filter historyKeep := List.mem_of_mem_drop hm
    have hk : historyKeep m = true := List.of_mem_filter hmem
    obtain ⟨r, c, mo, rh⟩ := m
    cases r <;> simp_all [historyKeep]

/-! ## Lemmas for the message-id generator -/

theorem digitChar_ne_dash (m : Nat) : digitChar m ≠ '-' := by
  unfold digitChar
  split <;> decide

theorem digitChar_toNat (m : Nat) (h : m < 10) : (digitChar m).toNat = 48 + m := by
  interval_cases m <;> decide

theorem repAux_ne_dash : ∀ fuel n, ∀ c ∈ repAux fuel n, c ≠ '-' := by
  intro fuel
  induction fuel with
  | zero => intro n c hc; simp [repAux] at hc
  | succ fuel ih =>
    intro n c hc
    unfold repAux at hc
    by_cases h : n < 10
    · rw [if_pos h] at hc
      simp at hc
      subst hc
      exact digitChar_ne_dash n
    · rw [if_neg h] at hc
      rcases List.mem_append.mp hc with h1 | h2
      · exact ih _ _ h1
      · simp at h2
        subst h2
        exact digitChar_ne_dash _

theorem decimalVal_append (xs : List Char) (c : Char) :
    decimalVal (xs ++ [c]) = 10 * decimalVal xs + (c.toNat - 48) := by
  unfold decimalVal
  rw [List.foldl_append]
  rfl

theorem repAux_val : ∀ fuel n, n < fuel → decimalVal (repAux fuel n) = n := by
  intro fuel
  induction fuel with
  | zero => omega
  | succ fuel ih =>
    intro n hn
    unfold repAux
    by_cases h : n < 10
    · rw [if_pos h]
      show decimalVal [digitChar n] = n
      simp [decimalVal, digitChar_toNat n h]
    · rw [if_neg h, decimalVal_append]
      have hd : n / 10 < fuel := by
        have := Nat.div_lt_self (by omega : 0 < n) (by omega : 1 < 10)
        omega
      rw [ih _ hd, digitChar_toNat _ (Nat.mod_lt _ (by omega))]
      omega

theorem repList_inj {a b : Nat} (h : repList a = repList b) : a = b := by
  have ha := repAux_val (a + 1) a (by omega)
  have hb := repAux_val (b + 1) b (by omega)
  unfold repList at h
  rw [h] at ha
  omega

theorem repList_ne_dash (n : Nat) : '-' ∉ repList n :=
  fun hc => repAux_ne_dash _ _ _ hc rfl

theorem sep_split : ∀ (xs1 ys1 xs2 ys2 : List Char),
    '-' ∉ xs1 → '-' ∉ xs2 →
    xs1 ++ '-' :: ys1 = xs2 ++ '-' :: ys2 → xs1 = xs2 ∧ ys1 = ys2 := by
  intro xs1
  induction xs1 with
  | nil =>
    intro ys1 xs2 ys2 _ h2 h
    cases xs2 with
    | nil =>
      simp only [List.nil_append, List.cons.injEq] at h
      exact ⟨rfl, h.2⟩
    | cons b t2 =>
      simp only [List.nil_append, List.cons_append, List.cons.injEq] at h
      exact absurd (h.1 ▸ List.mem_cons_self b t2) h2
  | cons a t ih =>
    intro ys1 xs2 ys2 h1 h2 h
    cases xs2 with
    | nil =>
      simp only [List.nil_append, List.cons_append, List.cons.injEq] at h
      exact absurd (h.1 ▸ List.mem_cons_self a t) h1
    | cons b t2 =>
      simp only [List.cons_append, List.cons.injEq] at h
      have hrec := ih ys1 t2 ys2
        (fun hm => h1 (List.mem_cons_of_mem _ hm))
        (fun hm => h2 (List.mem_cons_of_mem _ hm)) h.2
      exact ⟨by rw [h.1, hrec.1], hrec.2⟩

theorem mkId_counter_eq {t1 c1 t2 c2 : Nat} (h : mkId t1 c1 = mkId t2 c2) :
    c1 = c2 := by
  unfold mkId at h
  have h' := congrArg String.data h
  simp only [List.cons.injEq] at h'
  exact repList_inj
    (sep_split _ _ _ _ (repList_ne_dash t1) (repList_ne_dash t2) h'.2.2.2.2).2

theorem runGenC_get? (ts : List Nat) : ∀ (g : IdGen) (k : Nat), k < ts.length →
    (runGenC g ts).get? k =
      some (mkId (ts.getD k 0) (g.counter + k + 1), g.counter + k + 1) := by
  induction ts with
  | nil => intro g k hk; simp at hk
  | cons t ts ih =>
    intro g k hk
    cases k with
    | zero => simp [runGenC, generateId]
    | succ k =>
      have hrec := ih { counter := g.counter + 1 } k (by simpa using hk)
      simp only [runGenC, generateId, List.get?_cons_succ, List.getD_cons_succ]
      rw [hrec]
      norm_num
      constructor <;> [skip; omega]
      congr 1
      omega

/-- C10: in any run of sequential transcript appends, a later entry's id
carries a strictly greater counter component than any earlier entry's, and
the two id strings are never equal — whatever the clock readings were. -/
theorem sequential_ids_strictly_increase (ts : List Nat) (g : IdGen) (i j : Nat)
    (hij : i < j) (hj : j < ts.length) (ei ej : String × Nat)
    (hei : (runGenC g ts).get? i = some ei)
    (hej : (runGenC g ts).get? j = some ej) :
    ei.2 < ej.2 ∧ ei.1 ≠ ej.1 := by
  have hi : i < ts.length := Nat.lt_trans hij hj
  rw [runGenC_get? ts g i hi] at hei
  rw [runGenC_get? ts g j hj] at hej
  injection hei with h1
  injection hej with h2
  subst h1
  subst h2
  refine ⟨by omega, ?_⟩
  intro heq
  have := mkId_counter_eq heq
  omega

/-- C10 witness: the theorem applied to a two-append run. -/
theorem sequential_ids_strictly_increase_witness :
    ((0 : Nat) < 1 ∧ 1 < ([5, 3] : List Nat).length ∧
      (runGenC { counter := 0 } [5, 3]).get? 0 = some (mkId 5 1, 1) ∧
      (runGenC { counter := 0 } [5, 3]).get? 1 = some (mkId 3 2, 2)) ∧
    ((mkId 5 1, 1) : String × Nat).2 < ((mkId 3 2, 2) : String × Nat).2 ∧
    ((mkId 5 1, 1) : String × Nat).1 ≠ ((mkId 3 2, 2) : String × Nat).1 :=
  ⟨⟨by decide, by decide, by decide, by decide⟩,
    sequential_ids_strictly_increase [5, 3] { counter := 0 } 0 1
      (by decide) (by decide) _ _ (by decide) (by decide)⟩

end UITraps
